import Mathlib

/-!
# AI-Health-App — verification of the analytical front-end logic

Shallow embedding of the TypeScript front-end logic of the AI-Health-App
repository (insight feed rendering, silence-state computation, chart
baseline handling, driver ranking, safety badges, check-in clamping) and,
where the backend engine is absent from the sources, spec-modelled
definitions of the evaluation verdict gate.

JavaScript numbers are modelled as `ℚ`; `null`/`undefined` as `Option`;
a fallible `fetch` as `Except Unit`; timestamps as integers (days).
-/

namespace AIHealth

/-! ## Evidence grades and safety badge (src/frontend/src/types/Safety.ts,
src/frontend/src/components/SafetyBadge.tsx) -/

/-- `EvidenceGrade` from `src/frontend/src/types/Safety.ts`:
`export type EvidenceGrade = "A" | "B" | "C" | "D"`. -/
inductive EvidenceGrade
  | A
  | B
  | C
  | D
deriving DecidableEq, Repr

/-- The evidence grade the `SafetyBadge` component displays
(`src/frontend/src/components/SafetyBadge.tsx`):
`const evidence = (safety.evidence_grade || "D") as EvidenceGrade`.
All four grade strings are truthy in JS, so `||` only replaces an
absent (`undefined`/`null`) grade by `"D"`. -/
def displayedEvidenceGrade (g : Option EvidenceGrade) : EvidenceGrade :=
  match g with
  | none => EvidenceGrade.D
  | some x => x

/-! ## Daily check-in clamping (src/frontend/src/components/DailyInbox.tsx) -/

/-- `DailyInbox.tsx` line 5: `const clamp = (n: number) => Math.max(0, Math.min(10, n))`. -/
def clamp (n : ℤ) : ℤ := max 0 (min 10 n)

/-- The value `DailyInbox.setScore` writes through `patchCheckIn`:
`patchCheckIn(userId, todayISO, { [field]: clamp(value) })`. -/
def setScorePatchValue (value : ℤ) : ℤ := clamp value

/-! ## Insight feed confidence display (src/unnamed/part_021, InsightFeed) -/

/-- `confidenceColor` from the insight feed:
`if (confidence >= 0.8) return "text-green-600";
 if (confidence >= 0.5) return "text-yellow-600";
 return "text-red-600";` -/
def confidenceColor (confidence : ℚ) : String :=
  if 0.8 ≤ confidence then "text-green-600"
  else if 0.5 ≤ confidence then "text-yellow-600"
  else "text-red-600"

/-- The three mutually exclusive uncertainty messages of the insight feed. -/
inductive UncertaintyNote
  | limitedData
  | moderateConfidence
  | highConfidence
deriving DecidableEq, Repr

/-- The uncertainty message the insight feed shows for a normal insight:
`insight.confidence < 0.5 ? (limited data) : insight.confidence < 0.8 ?
(moderate confidence) : (high confidence)`. -/
def uncertaintyNoteFor (confidence : ℚ) : UncertaintyNote :=
  if confidence < 0.5 then UncertaintyNote.limitedData
  else if confidence < 0.8 then UncertaintyNote.moderateConfidence
  else UncertaintyNote.highConfidence

/-! ## Metric series and silence states (src/frontend/src/types/MetricSeries.ts,
src/unnamed/part_015, InsightsFeedPage) -/

/-- Provider status returned by `whoopStatus`. -/
structure ProviderStatus where
  connected : Bool
deriving DecidableEq, Repr

/-- `MetricPoint` from `src/frontend/src/types/MetricSeries.ts`. -/
structure MetricPoint where
  timestamp : ℤ
  value : ℚ
deriving DecidableEq, Repr

/-- `MetricBaseline` from `src/frontend/src/types/MetricSeries.ts`:
`mean: number | null; std: number | null; available: boolean; reason: string | null`. -/
structure MetricBaseline where
  mean : Option ℚ
  std : Option ℚ
  available : Bool
  reason : Option String
deriving DecidableEq, Repr

/-- `MetricSeriesResponse` from `src/frontend/src/types/MetricSeries.ts`. -/
structure MetricSeriesResponse where
  metric_key : String
  points : List MetricPoint
  baseline : MetricBaseline
deriving DecidableEq, Repr

/-- `SilenceState` from the insights feed page (src/unnamed/part_015):
`'no_provider' | 'no_recent_data' | 'baseline_building' | 'no_signal'`
(the page state additionally allows `null`, modelled as `Option SilenceState`). -/
inductive SilenceState
  | no_provider
  | no_recent_data
  | baseline_building
  | no_signal
deriving DecidableEq, Repr, Fintype

/-- `determineSilenceState` from the insights feed page, as a pure function of
the two fetch outcomes and the current day. The two `try`/`catch` blocks are
the two `Except` matches; `sevenDaysAgo` is `now - 7`;
`recentPoints = points.filter(p => new Date(p.timestamp) >= sevenDaysAgo)`. -/
def determineSilenceState (provider : Except Unit ProviderStatus)
    (metric : Except Unit MetricSeriesResponse) (now : ℤ) : SilenceState :=
  match provider with
  | .error _ => SilenceState.no_provider
  | .ok ps =>
    if ps.connected = false then SilenceState.no_provider
    else
      match metric with
      | .error _ => SilenceState.no_recent_data
      | .ok m =>
        let recentPoints := m.points.filter (fun p => now - 7 ≤ p.timestamp)
        if recentPoints.isEmpty then SilenceState.no_recent_data
        else if m.baseline.available = false then SilenceState.baseline_building
        else SilenceState.no_signal

/-- A situation in which the insights feed is empty. The page computes its
silence state from the provider-status fetch and the metric-series fetch
alone; whether the emptiness is due to safety suppression
(`safetySuppressed`) is not an input of `determineSilenceState` anywhere in
the source, so `silenceStateFor` below cannot read it. -/
structure SilenceSituation where
  providerStatus : Except Unit ProviderStatus
  metricFetch : Except Unit MetricSeriesResponse
  now : ℤ
  safetySuppressed : Bool

/-- The silence state the page shows in a given empty-feed situation:
the source calls `determineSilenceState(userId)`, which performs exactly the
two fetches of the situation and receives no safety information. -/
def silenceStateFor (s : SilenceSituation) : SilenceState :=
  determineSilenceState s.providerStatus s.metricFetch s.now

/-- The content block `SilenceStateMessage.getStateContent` returns. -/
structure SilenceContent where
  title : String
  message : String
  trustLine : String
  icon : String
deriving DecidableEq, Repr

/-- `getStateContent` from `SilenceStateMessage` (src/unnamed/part_015):
one content block per silence state plus the `default` branch for `null`. -/
def getStateContent (state : Option SilenceState) : SilenceContent :=
  match state with
  | some SilenceState.no_provider =>
    ⟨"No wearable connected yet",
     "Connect a wearable device to begin tracking your health patterns over time.",
     "The system waits for data before generating insights, ensuring accuracy and relevance.",
     "📱"⟩
  | some SilenceState.no_recent_data =>
    ⟨"Waiting for recent data",
     "Your device is connected, but we need recent measurements to identify patterns.",
     "The system only analyzes data it can trust, which requires consistent recent measurements.",
     "⏳"⟩
  | some SilenceState.baseline_building =>
    ⟨"Baseline still forming",
     "We\x27re learning your normal patterns. This takes time to ensure insights are meaningful.",
     "The system builds a personalized baseline before detecting changes, preventing false signals.",
     "📊"⟩
  | some SilenceState.no_signal =>
    ⟨"Nothing stands out yet",
     "Your data shows normal variation. The system only surfaces insights when patterns are clear and meaningful.",
     "Silence here means the system is confident there\x27s nothing unusual to report—this is intentional restraint.",
     "✓"⟩
  | none =>
    ⟨"No insights available",
     "The system is analyzing your data. Insights will appear when meaningful patterns are detected.",
     "The system prioritizes accuracy over volume, only sharing insights it can support with confidence.",
     "🔍"⟩

/-- A healthy metric-series response used as a concrete situation: one recent
point (day 9) and an available baseline. -/
def healthyMetricResponse : MetricSeriesResponse :=
  ⟨"recovery_score", [⟨9, 60⟩], ⟨some 55, some 5, true, none⟩⟩

/-! ## Chart baseline handling (src/frontend/src/components/MetricChart.tsx,
src/frontend/src/components/SleepDurationChart.tsx) -/

/-- JavaScript arithmetic coercion: in `a + b` / `a - b` over numbers, a
`null` operand is converted to the number 0 (`ToNumber(null) = 0`). -/
def jsNum (x : Option ℚ) : ℚ := x.getD 0

/-- `MetricChart.tsx` line 29: `const baselineUpper = baselineMean +
series.baseline.std` where `const baselineMean = series.baseline.mean`.
Both operands may be `null` and are then coerced to 0 by JS addition. -/
def metricChartBaselineUpper (series : MetricSeriesResponse) : ℚ :=
  jsNum series.baseline.mean + jsNum series.baseline.std

/-- `MetricChart.tsx` line 30: `const baselineLower = baselineMean -
series.baseline.std`. -/
def metricChartBaselineLower (series : MetricSeriesResponse) : ℚ :=
  jsNum series.baseline.mean - jsNum series.baseline.std

/-- `MetricChart` renders its datasets (series line, baseline-mean line,
±1-std band) whenever `series.points` is non-empty; that early-return guard
is the only one in the component — `series.baseline.available` is never
consulted. -/
def metricChartRendersDatasets (series : MetricSeriesResponse) : Bool :=
  !series.points.isEmpty

/-- The footer of `MetricChart`: `Baseline: {baselineMean.toFixed(1)} ±
{series.baseline.std.toFixed(1)}`. Calling `toFixed` on `null` throws a
`TypeError`, modelled as `.error ()`; otherwise the two numbers shown. -/
def metricChartBaselineSummary (series : MetricSeriesResponse) : Except Unit (ℚ × ℚ) :=
  match series.baseline.mean, series.baseline.std with
  | some m, some s => Except.ok (m, s)
  | _, _ => Except.error ()

/-- `SleepDurationChart.tsx` line 34: same computation as `MetricChart`, with
no guard at all before the datasets are built. -/
def sleepChartBaselineUpper (series : MetricSeriesResponse) : ℚ :=
  jsNum series.baseline.mean + jsNum series.baseline.std

/-- `SleepDurationChart.tsx` line 35. -/
def sleepChartBaselineLower (series : MetricSeriesResponse) : ℚ :=
  jsNum series.baseline.mean - jsNum series.baseline.std

/-- A series whose baseline is unavailable (`available=false`, `mean` and
`std` null) but which has one data point, so the chart renders. -/
def unavailableBaselineSeries : MetricSeriesResponse :=
  ⟨"sleep_duration", [⟨0, 7⟩], ⟨none, none, false, some "insufficient_data"⟩⟩

/-! ## Insight feed rendering (src/unnamed/part_021, InsightFeed /
SafetyTriggers / getInsightTypeBadge) -/

/-- One entry of `evidence.triggers` as read by `SafetyTriggers`:
`t.severity`, `t.action`, `t.message`, `t.evidence?.value`. -/
structure SafetyTrigger where
  severity : String
  action : String
  message : String
  evidenceValue : Option String
deriving DecidableEq, Repr

/-- The fields of `insight.evidence.interaction` read by the feed. -/
structure InteractionInfo where
  confounder_key : Option String
  message : Option String
  note : Option String
deriving DecidableEq, Repr

/-- `Partial<SafetyDecision>` as consumed by `SafetyBadge`. -/
structure PartialSafetyDecision where
  risk : Option String
  boundary : Option String
  evidence_grade : Option EvidenceGrade
deriving DecidableEq, Repr

/-- The keys of `insight.evidence` that `InsightFeed` reads (the component
treats `evidence` as `any`; these are every key it dereferences). -/
structure InsightEvidence where
  type : Option String
  triggers : Option (List SafetyTrigger)
  strength : Option String
  direction : Option String
  z_score : Option ℚ
  slope_per_day : Option ℚ
  instability_ratio : Option ℚ
  recent_mean : Option ℚ
  baseline_mean : Option ℚ
  interaction : Option InteractionInfo
  safety : Option PartialSafetyDecision
deriving DecidableEq, Repr

/-- `Object.keys(insight.evidence).length > 0` over the modelled keys. -/
def InsightEvidence.hasAnyKey (e : InsightEvidence) : Bool :=
  e.type.isSome || e.triggers.isSome || e.strength.isSome || e.direction.isSome ||
  e.z_score.isSome || e.slope_per_day.isSome || e.instability_ratio.isSome ||
  e.recent_mean.isSome || e.baseline_mean.isSome || e.interaction.isSome ||
  e.safety.isSome

/-- `Insight` from `src/frontend/src/types/Insight.ts` with the extra
`explanation` key the feed reads through a cast. -/
structure Insight where
  id : ℤ
  created_at : String
  title : String
  summary : String
  metric_key : String
  domain_key : Option String
  confidence : ℚ
  status : String
  evidence : InsightEvidence
  explanation : Option String
deriving DecidableEq, Repr

/-- `t.action.replaceAll("_", " ")` of `SafetyTriggers` (single-character
pattern, so a character map). -/
def underscoresToSpaces (s : String) : String :=
  s.map (fun c => if c = '_' then ' ' else c)

/-- The flattened user-visible pieces a rendered insight card can contain;
one constructor per distinct JSX fragment of `InsightFeed`. -/
inductive RenderedElem
  | titleText (s : String)
  | safetyAlertBadge
  | safetyTriggerRow (severity action message : String) (value : Option String)
  | insightTypeBadge (t : String)
  | statusBadge (s : String)
  | summaryText (s : String)
  | metricLabel (s : String)
  | domainMeta (k : String)
  | confidenceText (color : String)
  | uncertaintyText (n : UncertaintyNote)
  | interactionSummary
  | safetyBadge
  | evidenceSection
  | explanationSection
  | timestampText (s : String)
deriving DecidableEq, Repr

/-- `SafetyTriggers`: one red box per trigger, showing
`{t.severity.toUpperCase()} — {t.action.replaceAll("_", " ")}`, the message,
and the optional `t.evidence?.value`. -/
def renderSafetyTriggers (ts : List SafetyTrigger) : List RenderedElem :=
  ts.map (fun t =>
    RenderedElem.safetyTriggerRow t.severity.toUpper (underscoresToSpaces t.action)
      t.message t.evidenceValue)

/-- `getInsightTypeBadge`: `const type = evidence?.type; if (!type) return
null;` (the empty string is falsy) else a badge labelled with the type. -/
def getInsightTypeBadge (e : InsightEvidence) : List RenderedElem :=
  match e.type with
  | none => []
  | some t => if t = "" then [] else [RenderedElem.insightTypeBadge t]

/-- `DomainMeta`: `if (!domainKey) return null` (empty string falsy), else a
domain label. -/
def renderDomainMeta (domainKey : Option String) : List RenderedElem :=
  match domainKey with
  | none => []
  | some k => if k = "" then [] else [RenderedElem.domainMeta k]

/-- One insight card of `InsightFeed`, flattened to its visible pieces.
The branch condition is `evidence?.type === "safety" && evidence?.triggers`
(an array is truthy even when empty); the safety branch `return`s before any
of the normal-card JSX, so the two bodies below are the two disjoint
`return` expressions of the source. -/
def renderInsight (i : Insight) : List RenderedElem :=
  if i.evidence.type = some "safety" ∧ i.evidence.triggers.isSome = true then
    [RenderedElem.titleText i.title, RenderedElem.safetyAlertBadge,
     RenderedElem.summaryText i.summary] ++
    renderSafetyTriggers (i.evidence.triggers.getD []) ++
    [RenderedElem.timestampText i.created_at]
  else
    [RenderedElem.titleText i.title] ++ getInsightTypeBadge i.evidence ++
    [RenderedElem.statusBadge i.status, RenderedElem.summaryText i.summary,
     RenderedElem.metricLabel i.metric_key] ++
    renderDomainMeta i.domain_key ++
    [RenderedElem.confidenceText (confidenceColor i.confidence),
     RenderedElem.uncertaintyText (uncertaintyNoteFor i.confidence)] ++
    (if i.evidence.interaction.isSome then [RenderedElem.interactionSummary] else []) ++
    (if i.evidence.safety.isSome then [RenderedElem.safetyBadge] else []) ++
    (if i.evidence.hasAnyKey then [RenderedElem.evidenceSection] else []) ++
    (if i.explanation.isSome then [RenderedElem.explanationSection] else []) ++
    [RenderedElem.timestampText i.created_at]

/-- The pieces only the normal (non-safety) card can contain: the insight
type badge, status badge, metric/domain labels, confidence display,
uncertainty message, interaction/safety metadata and the evidence and
explanation sections. -/
def isNormalOnlyElem (e : RenderedElem) : Bool :=
  match e with
  | RenderedElem.insightTypeBadge _ => true
  | RenderedElem.statusBadge _ => true
  | RenderedElem.metricLabel _ => true
  | RenderedElem.domainMeta _ => true
  | RenderedElem.confidenceText _ => true
  | RenderedElem.uncertaintyText _ => true
  | RenderedElem.interactionSummary => true
  | RenderedElem.safetyBadge => true
  | RenderedElem.evidenceSection => true
  | RenderedElem.explanationSection => true
  | _ => false

/-- A concrete safety insight: one high-severity trigger. -/
def exSafetyInsight : Insight :=
  ⟨1, "2025-03-01T08:00:00Z", "Safety alert", "Please review this reading",
   "resting_hr", none, 9/10, "detected",
   ⟨some "safety",
    some [⟨"high", "contact_doctor", "Resting heart rate extremely high", some "190"⟩],
    none, none, none, none, none, none, none, none, none⟩,
   none⟩

/-! ## Personal drivers panel (src/unnamed/part_020, PersonalDriversPanel;
src/frontend/src/types/Summary.ts, PersonalDriver) -/

/-- `DriverType` from `src/frontend/src/types/Summary.ts`. -/
inductive DriverType
  | behavior
  | supplement
  | intervention
  | lab_marker
deriving DecidableEq, Repr

/-- `Direction` from `src/frontend/src/types/Summary.ts`. -/
inductive DriverDirection
  | positive
  | negative
  | neutral
deriving DecidableEq, Repr

/-- `PersonalDriver` from `src/frontend/src/types/Summary.ts`. -/
structure PersonalDriver where
  id : ℤ
  user_id : ℤ
  driver_type : DriverType
  driver_key : String
  outcome_metric : String
  lag_days : ℤ
  effect_size : ℚ
  direction : DriverDirection
  variance_explained : ℚ
  confidence : ℚ
  stability : ℚ
  sample_size : ℤ
  created_at : String
deriving DecidableEq, Repr

/-- The three display groups of `PersonalDriversPanel`. -/
inductive DriverGroup
  | helping
  | hurting
  | unclear
deriving DecidableEq, Repr

/-- The classification loop of `PersonalDriversPanel`:
`if (d.direction === "positive" && d.confidence >= 0.6) helping.push(d);
else if (d.direction === "negative" && d.confidence >= 0.6) hurting.push(d);
else unclear.push(d);` -/
def classifyDriver (d : PersonalDriver) : DriverGroup :=
  if d.direction = DriverDirection.positive ∧ 0.6 ≤ d.confidence then DriverGroup.helping
  else if d.direction = DriverDirection.negative ∧ 0.6 ≤ d.confidence then DriverGroup.hurting
  else DriverGroup.unclear

/-- `Array.prototype.sort` with the numeric comparator `(a, b) => keyOf b -
keyOf a`: a stable sort placing larger keys first. Modelled as a stable
insertion sort descending in `keyOf`. -/
def sortByKeyDesc {α : Type} (keyOf : α → ℚ) (l : List α) : List α :=
  l.insertionSort (fun a b => keyOf b ≤ keyOf a)

/-- The `helping` group as sorted by the panel:
`helping.sort((a, b) => (b.confidence * b.effect_size) - (a.confidence *
a.effect_size))` — note: no absolute value. -/
def helpingGroup (drivers : List PersonalDriver) : List PersonalDriver :=
  sortByKeyDesc (fun d => d.confidence * d.effect_size)
    (drivers.filter (fun d => classifyDriver d = DriverGroup.helping))

/-- The `hurting` group as sorted by the panel:
`hurting.sort((a, b) => (b.confidence * Math.abs(b.effect_size)) -
(a.confidence * Math.abs(a.effect_size)))`. -/
def hurtingGroup (drivers : List PersonalDriver) : List PersonalDriver :=
  sortByKeyDesc (fun d => d.confidence * |d.effect_size|)
    (drivers.filter (fun d => classifyDriver d = DriverGroup.hurting))

/-- The `unclear` group as sorted by the panel:
`unclear.sort((a, b) => b.confidence - a.confidence)` — confidence only. -/
def unclearGroup (drivers : List PersonalDriver) : List PersonalDriver :=
  sortByKeyDesc (fun d => d.confidence)
    (drivers.filter (fun d => classifyDriver d = DriverGroup.unclear))

/-- The rows actually displayed: `helping.slice(0, 5)`. -/
def displayedHelpingGroup (drivers : List PersonalDriver) : List PersonalDriver :=
  (helpingGroup drivers).take 5

/-- `hurting.slice(0, 5)`. -/
def displayedHurtingGroup (drivers : List PersonalDriver) : List PersonalDriver :=
  (hurtingGroup drivers).take 5

/-- `unclear.slice(0, 3)`. -/
def displayedUnclearGroup (drivers : List PersonalDriver) : List PersonalDriver :=
  (unclearGroup drivers).take 3

/-- The ordering the spec prescribes for displayed driver candidates:
non-increasing `confidence × |effect_size|`. -/
def orderedByRerankKey (l : List PersonalDriver) : Prop :=
  l.Pairwise (fun a b => b.confidence * |b.effect_size| ≤ a.confidence * |a.effect_size|)

/-- An unclear driver with moderate confidence but tiny effect. -/
def exDriverSmallEffect : PersonalDriver :=
  ⟨1, 1, DriverType.behavior, "took_magnesium", "sleep_duration", 0, 1/10,
   DriverDirection.neutral, 1/100, 1/2, 1/2, 20, "2025-03-01"⟩

/-- An unclear driver with slightly lower confidence but a large effect, so
its `confidence × |effect_size|` exceeds the previous driver's. -/
def exDriverLargeEffect : PersonalDriver :=
  ⟨2, 1, DriverType.behavior, "had_alcohol", "sleep_duration", 0, 1,
   DriverDirection.neutral, 1/4, 2/5, 1/2, 20, "2025-03-01"⟩

/-! ## Driver findings rows (src/unnamed/part_009, DriverFinding) -/

/-- `ExposureType` from the drivers type file. -/
inductive ExposureType
  | behavior
  | intervention
deriving DecidableEq, Repr

/-- `Direction` from the drivers type file:
`"improves" | "worsens" | "unclear"`. -/
inductive FindingDirection
  | improves
  | worsens
  | unclear
deriving DecidableEq, Repr

/-- The declared fields of the `DriverFinding` interface
(src/unnamed/part_009 lines 4–21), in source order. -/
def driverFindingFields : List String :=
  ["id", "user_id", "exposure_type", "exposure_key", "metric_key", "lag_days",
   "direction", "effect_size", "confidence", "coverage", "n_exposure_days",
   "n_total_days", "window_start", "window_end", "details", "created_at"]

/-- `DriverFinding` from src/unnamed/part_009. The `details` blob is
`Record<string, any> | null`; only its key set matters for which attributes
a row carries, so it is modelled as an optional list of keys. -/
structure DriverFinding where
  id : ℤ
  user_id : ℤ
  exposure_type : ExposureType
  exposure_key : String
  metric_key : String
  lag_days : ℤ
  direction : FindingDirection
  effect_size : ℚ
  confidence : ℚ
  coverage : ℚ
  n_exposure_days : ℤ
  n_total_days : ℤ
  window_start : String
  window_end : String
  details : Option (List String)
  created_at : String
deriving DecidableEq, Repr

/-- A `DriverFinding` row carries an attribute when the attribute is a
declared field of the interface or a key of its `details` blob. -/
def carriesAttr (d : DriverFinding) (attr : String) : Prop :=
  attr ∈ driverFindingFields ∨ attr ∈ d.details.getD []

instance (d : DriverFinding) (attr : String) : Decidable (carriesAttr d attr) := by
  unfold carriesAttr
  infer_instance

/-- A well-typed `DriverFinding` row whose `details` blob is null, as the
interface allows. -/
def exDriverFindingRow : DriverFinding :=
  ⟨1, 1, ExposureType.behavior, "took_magnesium", "sleep_duration", 0,
   FindingDirection.improves, 1/2, 7/10, 3/5, 10, 20, "2025-02-01",
   "2025-02-20", none, "2025-02-21T00:00:00Z"⟩

/-! ## Evaluation verdict gate (spec-modelled) -/

/-- `verdict` values of an `EvaluationResult` (spec §3). -/
inductive Verdict
  | helpful
  | not_helpful
  | unclear
  | insufficient_data
deriving DecidableEq, Repr

/-- `EvaluationResult` attributes used by the verdict invariant (spec §3). -/
structure EvaluationResult where
  effect_size : ℚ
  confidence_score : ℚ
  verdict : Verdict
  has_adherence_evidence : Bool
deriving DecidableEq, Repr

/-- Modelled from the spec: the Evaluation Engine
(`backend/app/engine/evaluation_service.py`) is not under `src/`. The
repository's remediation notes record a minimum confidence threshold of 0.5
for `helpful` verdicts. -/
def minConfidenceForHelpful : ℚ := 0.5

/-- Modelled from the spec: the Evaluation Engine is not under `src/`. Spec
§3: "verdict may only be `helpful` if has_adherence_evidence is true and
confidence_score ≥ a minimum threshold; otherwise verdict is forced to
`unclear`" — a would-be `helpful` verdict is downgraded to `unclear` unless
adherence evidence was logged and the confidence score meets the minimum. -/
def gateVerdict (proposed : Verdict) (hasAdherence : Bool) (conf : ℚ) : Verdict :=
  if proposed = Verdict.helpful ∧ ¬(hasAdherence = true ∧ minConfidenceForHelpful ≤ conf)
  then Verdict.unclear
  else proposed

/-- Modelled from the spec: an `EvaluationResult` is assembled with the gated
verdict; the effect size never bypasses the gate. -/
def mkEvaluationResult (effect conf : ℚ) (proposed : Verdict)
    (hasAdherence : Bool) : EvaluationResult :=
  ⟨effect, conf, gateVerdict proposed hasAdherence conf, hasAdherence⟩

end AIHealth

open AIHealth

/-- C7: evidence grades range over exactly {A, B, C, D}; a safety decision
rendered with `evidence_grade` absent displays the default grade D, and a
present grade is displayed unchanged. -/
theorem C7_evidence_grade_default :
    (∀ g : EvidenceGrade,
      g = EvidenceGrade.A ∨ g = EvidenceGrade.B ∨
      g = EvidenceGrade.C ∨ g = EvidenceGrade.D) ∧
    displayedEvidenceGrade none = EvidenceGrade.D ∧
    (∀ g : EvidenceGrade, displayedEvidenceGrade (some g) = g) := by
  refine ⟨?_, rfl, fun g => rfl⟩
  intro g
  cases g <;> simp

/-- C10: every score written through `DailyInbox.setScore` is clamped into
[0, 10]; `clamp` is idempotent and is the identity on [0, 10]. -/
theorem C10_setScore_clamped (n : ℤ) :
    (0 ≤ setScorePatchValue n ∧ setScorePatchValue n ≤ 10) ∧
    clamp (clamp n) = clamp n ∧
    (0 ≤ n → n ≤ 10 → clamp n = n) := by
  unfold setScorePatchValue clamp
  omega

/-- C10 witness: the theorem applied at the concrete score 7. -/
theorem C10_setScore_clamped_witness : clamp 7 = 7 :=
  (C10_setScore_clamped 7).2.2 (by decide) (by decide)

/-- C9: the insight feed shows exactly one of three uncertainty messages,
determined solely by confidence (limited-data iff < 0.5, moderate iff
0.5 ≤ c < 0.8, high iff ≥ 0.8), and the confidence text color is green iff
c ≥ 0.8, yellow iff 0.5 ≤ c < 0.8, red otherwise. -/
theorem C9_confidence_display (c : ℚ) :
    (uncertaintyNoteFor c = UncertaintyNote.limitedData ↔ c < 0.5) ∧
    (uncertaintyNoteFor c = UncertaintyNote.moderateConfidence ↔ 0.5 ≤ c ∧ c < 0.8) ∧
    (uncertaintyNoteFor c = UncertaintyNote.highConfidence ↔ 0.8 ≤ c) ∧
    (confidenceColor c = "text-green-600" ↔ 0.8 ≤ c) ∧
    (confidenceColor c = "text-yellow-600" ↔ 0.5 ≤ c ∧ c < 0.8) ∧
    (confidenceColor c = "text-red-600" ↔ c < 0.5) := by
  unfold uncertaintyNoteFor confidenceColor
  split_ifs with h1 h2 h3 h4 h5 h6 h7 h8 <;>
    refine ⟨?_, ?_, ?_, ?_, ?_, ?_⟩ <;>
    simp_all <;> linarith

/-- C9 witness: the theorem applied at confidence 0.9. -/
theorem C9_confidence_display_witness :
    uncertaintyNoteFor 0.9 = UncertaintyNote.highConfidence :=
  (C9_confidence_display 0.9).2.2.1.mpr (by norm_num)

/-- C8: `determineSilenceState` returns `no_signal` exactly when the provider
fetch succeeded with `connected`, the metric fetch succeeded with at least
one point in the last 7 days, and the baseline is available; a failed
provider fetch yields `no_provider`, and a failed metric fetch (with a
connected provider) yields `no_recent_data` — so a fetch failure never
yields `no_signal`. -/
theorem C8_determineSilenceState_spec (p : Except Unit ProviderStatus)
    (m : Except Unit MetricSeriesResponse) (now : ℤ) :
    (determineSilenceState p m now = SilenceState.no_signal ↔
      ∃ ps mr, p = .ok ps ∧ ps.connected = true ∧ m = .ok mr ∧
        mr.points.filter (fun pt => now - 7 ≤ pt.timestamp) ≠ [] ∧
        mr.baseline.available = true) ∧
    (p = .error () → determineSilenceState p m now = SilenceState.no_provider) ∧
    (∀ ps, p = .ok ps → ps.connected = true → m = .error () →
      determineSilenceState p m now = SilenceState.no_recent_data) := by
  refine ⟨?_, ?_, ?_⟩
  · cases p with
    | error u => simp [determineSilenceState]
    | ok ps =>
      cases m with
      | error u =>
        simp only [determineSilenceState]
        split_ifs <;> simp
      | ok mr =>
        simp only [determineSilenceState]
        split_ifs with h1 h2 h3 <;>
          simp_all [List.isEmpty_iff]
  · intro hp
    subst hp
    simp [determineSilenceState]
  · intro ps hp hc hm
    subst hp
    subst hm
    simp [determineSilenceState, hc]

/-- C8 witness: the theorem applied at a failed provider fetch. -/
theorem C8_determineSilenceState_spec_witness :
    determineSilenceState (.error ()) (.ok healthyMetricResponse) 10 =
      SilenceState.no_provider :=
  (C8_determineSilenceState_spec (.error ()) (.ok healthyMetricResponse) 10).2.1 rfl

/-- C3 counterexample: the silence-state computation has no state for safety
suppression. Two empty-feed situations that differ only in whether the
emptiness was caused by safety suppression yield the same state
`no_signal` (the state meant for "nothing happened"), and the
`SilenceState` type has exactly the four members `no_provider`,
`no_recent_data`, `baseline_building`, `no_signal` — none for safety. -/
theorem C3_counterexample :
    silenceStateFor ⟨.ok ⟨true⟩, .ok healthyMetricResponse, 10, true⟩ =
      SilenceState.no_signal ∧
    silenceStateFor ⟨.ok ⟨true⟩, .ok healthyMetricResponse, 10, false⟩ =
      SilenceState.no_signal ∧
    (∀ s : SilenceState,
      s = SilenceState.no_provider ∨ s = SilenceState.no_recent_data ∨
      s = SilenceState.baseline_building ∨ s = SilenceState.no_signal) := by
  refine ⟨by decide, by decide, ?_⟩
  intro s
  cases s <;> simp

/-- C3 amended: the silence-state computation distinguishes the four states
`no_provider`, `no_recent_data`, `baseline_building`, `no_signal` (plus a
default), each rendered with a distinct non-empty title and a non-empty
message — so the feed never renders an undifferentiated blank — but there
is no distinct state for safety suppression. -/
theorem C3_amended_distinct_states :
    (∀ s1 s2 : Option SilenceState,
      (getStateContent s1).title = (getStateContent s2).title → s1 = s2) ∧
    (∀ s : Option SilenceState,
      (getStateContent s).title ≠ "" ∧ (getStateContent s).message ≠ "") := by
  constructor
  · intro s1 s2
    revert s1 s2
    decide
  · intro s
    revert s
    decide

/-- C3 amended witness: the theorem applied at the `no_signal` state. -/
theorem C3_amended_distinct_states_witness :
    (some SilenceState.no_signal : Option SilenceState) = some SilenceState.no_signal :=
  C3_amended_distinct_states.1 (some SilenceState.no_signal) (some SilenceState.no_signal) rfl

/-- C2: on a series with one point and an unavailable baseline
(`available=false`, `mean`/`std` null), both chart components use the null
baseline numerically: the chart renders, the ±1-std band is computed at the
literal 0 (JS coerces `null` to 0 in `+`/`-`), and the baseline summary
throws a `TypeError` (`null.toFixed`), contradicting the requirement that an
unavailable baseline be treated as "no opinion". -/
theorem C2_null_baseline_used_as_zero :
    unavailableBaselineSeries.baseline.available = false ∧
    unavailableBaselineSeries.baseline.mean = none ∧
    unavailableBaselineSeries.baseline.std = none ∧
    metricChartRendersDatasets unavailableBaselineSeries = true ∧
    metricChartBaselineUpper unavailableBaselineSeries = 0 ∧
    metricChartBaselineLower unavailableBaselineSeries = 0 ∧
    metricChartBaselineSummary unavailableBaselineSeries = Except.error () ∧
    sleepChartBaselineUpper unavailableBaselineSeries = 0 ∧
    sleepChartBaselineLower unavailableBaselineSeries = 0 := by
  refine ⟨rfl, rfl, rfl, rfl, ?_, ?_, rfl, ?_, ?_⟩ <;>
    norm_num [metricChartBaselineUpper, metricChartBaselineLower,
      sleepChartBaselineUpper, sleepChartBaselineLower, jsNum,
      unavailableBaselineSeries]

/-- C1: an insight whose evidence has type "safety" and a non-empty triggers
list renders exclusively through the safety branch: the card is exactly the
safety header, summary, one row per trigger (severity and message), and the
timestamp; each trigger's severity and message appear; and no normal-card
content (type badge, status, metric/domain labels, confidence display,
uncertainty message, interaction/safety metadata, evidence or explanation
sections) is rendered. -/
theorem C1_safety_branch_exclusive (i : Insight) (ts : List SafetyTrigger)
    (htype : i.evidence.type = some "safety")
    (htrig : i.evidence.triggers = some ts) (_hne : ts ≠ []) :
    renderInsight i =
      [RenderedElem.titleText i.title, RenderedElem.safetyAlertBadge,
       RenderedElem.summaryText i.summary] ++ renderSafetyTriggers ts ++
      [RenderedElem.timestampText i.created_at] ∧
    (∀ t ∈ ts,
      RenderedElem.safetyTriggerRow t.severity.toUpper
        (underscoresToSpaces t.action) t.message t.evidenceValue ∈ renderInsight i) ∧
    (∀ e ∈ renderInsight i, isNormalOnlyElem e = false) := by
  have hcond : i.evidence.type = some "safety" ∧ i.evidence.triggers.isSome = true :=
    ⟨htype, by rw [htrig]; rfl⟩
  have hrender : renderInsight i =
      [RenderedElem.titleText i.title, RenderedElem.safetyAlertBadge,
       RenderedElem.summaryText i.summary] ++ renderSafetyTriggers ts ++
      [RenderedElem.timestampText i.created_at] := by
    unfold renderInsight
    rw [if_pos hcond, htrig]
    rfl
  refine ⟨hrender, ?_, ?_⟩
  · intro t ht
    rw [hrender]
    exact List.mem_append.mpr (Or.inl (List.mem_append.mpr
      (Or.inr (List.mem_map.mpr ⟨t, ht, rfl⟩))))
  · intro e he
    rw [hrender] at he
    rcases List.mem_append.mp he with h1 | h2
    · rcases List.mem_append.mp h1 with h3 | h4
      · simp only [List.mem_cons, List.mem_singleton, List.not_mem_nil, or_false] at h3
        rcases h3 with rfl | rfl | rfl <;> rfl
      · obtain ⟨t, _, rfl⟩ := List.mem_map.mp h4
        rfl
    · simp only [List.mem_singleton] at h2
      subst h2
      rfl

/-- C1 witness: the theorem applied at a concrete safety insight with one
high-severity trigger. -/
theorem C1_safety_branch_exclusive_witness :
    renderInsight exSafetyInsight =
      [RenderedElem.titleText exSafetyInsight.title, RenderedElem.safetyAlertBadge,
       RenderedElem.summaryText exSafetyInsight.summary] ++
      renderSafetyTriggers
        [⟨"high", "contact_doctor", "Resting heart rate extremely high", some "190"⟩] ++
      [RenderedElem.timestampText exSafetyInsight.created_at] :=
  (C1_safety_branch_exclusive exSafetyInsight
    [⟨"high", "contact_doctor", "Resting heart rate extremely high", some "190"⟩]
    rfl rfl (by simp)).1

/-- Helper: the panel's descending stable sort yields a list pairwise
non-increasing in its key. -/
theorem sortByKeyDesc_pairwise {α : Type} (keyOf : α → ℚ) (l : List α) :
    (sortByKeyDesc keyOf l).Pairwise (fun a b => keyOf b ≤ keyOf a) := by
  haveI : IsTotal α (fun a b => keyOf b ≤ keyOf a) :=
    ⟨fun a b => (le_total (keyOf b) (keyOf a)).imp id id⟩
  haveI : IsTrans α (fun a b => keyOf b ≤ keyOf a) :=
    ⟨fun _ _ _ hab hbc => le_trans hbc hab⟩
  exact List.sorted_insertionSort _ l

/-- C5 counterexample: two unclear drivers (neutral direction) where the
panel's displayed order — by confidence alone — is not non-increasing in
`confidence × |effect_size|`: the first displayed row has key 1/2 × 1/10 =
1/20, the second 2/5 × 1 = 2/5. -/
theorem C5_counterexample :
    displayedUnclearGroup [exDriverSmallEffect, exDriverLargeEffect] =
      [exDriverSmallEffect, exDriverLargeEffect] ∧
    ¬ orderedByRerankKey
        (displayedUnclearGroup [exDriverSmallEffect, exDriverLargeEffect]) := by
  have h : displayedUnclearGroup [exDriverSmallEffect, exDriverLargeEffect] =
      [exDriverSmallEffect, exDriverLargeEffect] := by
    norm_num [displayedUnclearGroup, unclearGroup, sortByKeyDesc, classifyDriver,
      exDriverSmallEffect, exDriverLargeEffect, List.filter,
      List.insertionSort, List.orderedInsert]
  refine ⟨h, ?_⟩
  rw [h]
  unfold orderedByRerankKey
  simp only [List.pairwise_cons, List.mem_singleton, List.mem_cons,
    List.not_mem_nil, or_false, forall_eq, List.Pairwise.nil, and_true]
  norm_num [exDriverSmallEffect, exDriverLargeEffect,
    abs_of_pos (show (0:ℚ) < 1/10 by norm_num),
    abs_of_pos (show (0:ℚ) < 1 by norm_num)]

/-- C5 amended: each displayed group is sorted by its own key — `helping` by
non-increasing `confidence × effect_size` (no absolute value), `hurting` by
non-increasing `confidence × |effect_size|`, and `unclear` by non-increasing
`confidence` alone. -/
theorem C5_amended_group_orderings (ds : List PersonalDriver) :
    (displayedHelpingGroup ds).Pairwise
      (fun a b => b.confidence * b.effect_size ≤ a.confidence * a.effect_size) ∧
    (displayedHurtingGroup ds).Pairwise
      (fun a b => b.confidence * |b.effect_size| ≤ a.confidence * |a.effect_size|) ∧
    (displayedUnclearGroup ds).Pairwise (fun a b => b.confidence ≤ a.confidence) := by
  refine ⟨?_, ?_, ?_⟩
  · exact (sortByKeyDesc_pairwise _ _).sublist (List.take_sublist _ _)
  · exact (sortByKeyDesc_pairwise _ _).sublist (List.take_sublist _ _)
  · exact (sortByKeyDesc_pairwise _ _).sublist (List.take_sublist _ _)

/-- C6 counterexample: a well-typed `DriverFinding` row with a null `details`
blob carries effect_size, direction, one confidence and coverage, but
carries neither `stability`, `guardrail_labels`, `fdr_adjusted_p`, nor a
second pre-guardrail confidence. -/
theorem C6_counterexample :
    carriesAttr exDriverFindingRow "effect_size" ∧
    carriesAttr exDriverFindingRow "direction" ∧
    carriesAttr exDriverFindingRow "confidence" ∧
    carriesAttr exDriverFindingRow "coverage" ∧
    ¬ carriesAttr exDriverFindingRow "stability" ∧
    ¬ carriesAttr exDriverFindingRow "guardrail_labels" ∧
    ¬ carriesAttr exDriverFindingRow "fdr_adjusted_p" ∧
    ¬ carriesAttr exDriverFindingRow "confidence_pre_guardrail" := by
  refine ⟨?_, ?_, ?_, ?_, ?_, ?_, ?_, ?_⟩ <;>
    simp [carriesAttr, exDriverFindingRow, driverFindingFields]

/-- C6 amended: every `DriverFinding` row carries effect_size, direction, a
single confidence, coverage, the sample counts (`n_exposure_days`,
`n_total_days`) and window bounds; `stability`, `guardrail_labels`,
`fdr_adjusted_p` and a pre-guardrail confidence are not declared fields, and
a row whose `details` blob is null carries none of them. -/
theorem C6_amended_row_attributes :
    (∀ d : DriverFinding,
      carriesAttr d "effect_size" ∧ carriesAttr d "direction" ∧
      carriesAttr d "confidence" ∧ carriesAttr d "coverage" ∧
      carriesAttr d "n_exposure_days" ∧ carriesAttr d "n_total_days" ∧
      carriesAttr d "window_start" ∧ carriesAttr d "window_end") ∧
    (∀ d : DriverFinding, d.details = none →
      ¬ carriesAttr d "stability" ∧ ¬ carriesAttr d "guardrail_labels" ∧
      ¬ carriesAttr d "fdr_adjusted_p" ∧
      ¬ carriesAttr d "confidence_pre_guardrail") := by
  constructor
  · intro d
    refine ⟨?_, ?_, ?_, ?_, ?_, ?_, ?_, ?_⟩ <;>
      exact Or.inl (by simp [driverFindingFields])
  · intro d hd
    refine ⟨?_, ?_, ?_, ?_⟩ <;>
      simp [carriesAttr, hd, driverFindingFields]

/-- C6 amended witness: the theorem applied at the concrete null-details row. -/
theorem C6_amended_row_attributes_witness :
    ¬ carriesAttr exDriverFindingRow "fdr_adjusted_p" ∧
    carriesAttr exDriverFindingRow "effect_size" :=
  ⟨(C6_amended_row_attributes.2 exDriverFindingRow rfl).2.2.1,
   (C6_amended_row_attributes.1 exDriverFindingRow).1⟩

/-- Helper: the gated verdict is `helpful` exactly when the proposed verdict
was `helpful`, adherence evidence is present, and the confidence score meets
the minimum threshold. -/
theorem gateVerdict_eq_helpful_iff (proposed : Verdict) (hasAdherence : Bool) (conf : ℚ) :
    gateVerdict proposed hasAdherence conf = Verdict.helpful ↔
      proposed = Verdict.helpful ∧ hasAdherence = true ∧ minConfidenceForHelpful ≤ conf := by
  unfold gateVerdict
  split_ifs with h
  · constructor
    · intro hv
      exact absurd hv (by simp)
    · rintro ⟨_, ha, hc⟩
      exact absurd ⟨ha, hc⟩ h.2
  · push_neg at h
    constructor
    · intro hv
      exact ⟨hv, h hv⟩
    · rintro ⟨hp, _, _⟩
      exact hp

/-- C4 (spec-modelled): the verdict is `helpful` only if adherence evidence
is present and the confidence score meets the minimum threshold; with
`has_adherence_evidence = false` the verdict is never `helpful` — a proposed
`helpful` verdict is forced to `unclear` — regardless of effect size. -/
theorem C4_verdict_gate (effect conf : ℚ) (proposed : Verdict) (hasAdh : Bool) :
    ((mkEvaluationResult effect conf proposed hasAdh).verdict = Verdict.helpful →
      hasAdh = true ∧ minConfidenceForHelpful ≤ conf) ∧
    (mkEvaluationResult effect conf proposed false).verdict ≠ Verdict.helpful ∧
    (proposed = Verdict.helpful →
      (mkEvaluationResult effect conf proposed false).verdict = Verdict.unclear) := by
  refine ⟨?_, ?_, ?_⟩
  · intro hv
    exact ((gateVerdict_eq_helpful_iff proposed hasAdh conf).mp hv).2
  · intro hv
    have hfalse := ((gateVerdict_eq_helpful_iff proposed false conf).mp hv).2.1
    simp at hfalse
  · intro hp
    subst hp
    show gateVerdict Verdict.helpful false conf = Verdict.unclear
    unfold gateVerdict
    rw [if_pos ⟨rfl, by simp⟩]

/-- C4 witness: the theorem applied at a large effect with no adherence
evidence: the verdict is forced to `unclear`. -/
theorem C4_verdict_gate_witness :
    (mkEvaluationResult 2 (9/10) Verdict.helpful false).verdict = Verdict.unclear :=
  (C4_verdict_gate 2 (9/10) Verdict.helpful false).2.2 rfl
